import Mathlib

/-!
# Verification of the cobrak aggregation and classification engine

This development gives a shallow embedding, in Lean 4, of the core analysis
logic of the cobrak cluster-analysis tool:

* the pressure classifier and pressure-level combinator
  (`pkg/capacity/pressure.go` and its earlier in-tree variant),
* the threshold validation (`pkg/config/settings.go`),
* the inventory aggregator (`pkg/resources`, `BuildInventory`),
* the usage reconciler (`pkg/resources/diff.go`, `BuildDiff`),
* the cluster capacity summary aggregation.

Modelling conventions:

* Go `float64` quantities (thresholds, utilization percentages, ratios) are
  modelled as `ℚ`; the program only compares and divides, and every claim
  checked here is insensitive to the float/rational distinction.
* `resource.Quantity` values are modelled as `ℤ` (CPU in milli-units, memory
  in bytes), mirroring `MilliValue()`/`Value()`.
* Go maps used as intermediate aggregates are modelled as association lists
  in first-insertion order; where the program *ranges* over a map (an order
  Go deliberately leaves unspecified), the iteration order is an explicit
  list parameter of the embedding.
* Go's `sort.Slice`/`sort.Strings` guarantee a sorted permutation of the
  input; they are modelled by `List.insertionSort` with the comparator
  translated from the source.
-/

/-! ## Pressure levels (`pkg/capacity/pressure.go`)

Go declares `type PressureLevel string` with four named constants; the zero
value of the type is the empty string, which the code can and does produce
(a node with no positive allocatable keeps its zero-valued level, and the
fold in `findMaxNodePressures` starts from the zero value).  The embedding
therefore carries a fifth constructor `unset` for the empty string. -/

inductive PressureLevel where
  | unset
  | low
  | medium
  | high
  | saturated
deriving DecidableEq, Repr, Fintype

/-- The `pressureOrder` map used by `combinePressureLevels` /
`prioritizePressure`.  A Go map lookup of a missing key (in particular the
empty string) yields the zero value `0`, so `unset` ranks `0`. -/
def pressureOrder : PressureLevel → Nat
  | .unset => 0
  | .low => 0
  | .medium => 1
  | .high => 2
  | .saturated => 3

/-- `combinePressureLevels` (pressure.go): returns `a` when
`pressureOrder[a] >= pressureOrder[b]`, else `b`. -/
def combinePressureLevels (a b : PressureLevel) : PressureLevel :=
  if pressureOrder b ≤ pressureOrder a then a else b

/-- `prioritizePressure` (part_009): same body as `combinePressureLevels`. -/
def prioritizePressure (a b : PressureLevel) : PressureLevel :=
  if pressureOrder b ≤ pressureOrder a then a else b

/-- Pressure thresholds; Go `float64` fields modelled as `ℚ`.  The same
field layout is declared both in `pkg/capacity` and in `pkg/config`. -/
structure PressureThresholds where
  Low : ℚ
  Medium : ℚ
  High : ℚ
  Saturated : ℚ
deriving DecidableEq, Repr

/-- `DefaultPressureThresholds` (pressure.go). -/
def DefaultPressureThresholds : PressureThresholds :=
  { Low := 50, Medium := 75, High := 90, Saturated := 100 }

/-- `getPressureLevel` (pressure.go): top-down switch on the utilization. -/
def getPressureLevel (utilization : ℚ) (thresholds : PressureThresholds) :
    PressureLevel :=
  if utilization ≥ thresholds.Saturated then .saturated
  else if utilization ≥ thresholds.High then .high
  else if utilization ≥ thresholds.Medium then .medium
  else if utilization ≥ thresholds.Low then .low
  else .low

/-- `calculatePressureLevelWithThresholds` (part_009): the same cascade of
`if` statements as `getPressureLevel`. -/
def calculatePressureLevelWithThresholds (utilization : ℚ)
    (thresholds : PressureThresholds) : PressureLevel :=
  if utilization ≥ thresholds.Saturated then .saturated
  else if utilization ≥ thresholds.High then .high
  else if utilization ≥ thresholds.Medium then .medium
  else if utilization ≥ thresholds.Low then .low
  else .low

/-- The classifier as worded by the spec: `>= saturated → SATURATED`; else
`>= high → HIGH`; else `>= medium → MEDIUM`; else `LOW`.  (The `low`
threshold is never consulted.)  Kept separate from the source-derived
definitions so that the two can be compared. -/
def specClassify (u : ℚ) (t : PressureThresholds) : PressureLevel :=
  if u ≥ t.Saturated then .saturated
  else if u ≥ t.High then .high
  else if u ≥ t.Medium then .medium
  else .low

/-- A level drawn from the four-level domain `{LOW, MEDIUM, HIGH,
SATURATED}`, i.e. not the string zero value. -/
def properLevel (l : PressureLevel) : Prop := l ≠ .unset

/-! ## Threshold validation (`pkg/config/settings.go`)

`Validate` returns `fmt.Errorf(...)` values; the embedding keeps the seven
distinct error sites as an enumeration (the formatted message text is a
rendering concern). -/

inductive ThresholdError where
  | lowOutOfRange
  | mediumOutOfRange
  | highOutOfRange
  | saturatedOutOfRange
  | lowNotBelowMedium
  | mediumNotBelowHigh
  | highNotBelowSaturated
deriving DecidableEq, Repr

/-- `(*PressureThresholds).Validate` (settings.go): range checks first, then
the ordering checks, each an early return; `none` means valid.  The receiver
is only read, never written. -/
def PressureThresholds.Validate (pt : PressureThresholds) :
    Option ThresholdError :=
  if pt.Low < 0 ∨ pt.Low > 100 then some .lowOutOfRange
  else if pt.Medium < 0 ∨ pt.Medium > 100 then some .mediumOutOfRange
  else if pt.High < 0 ∨ pt.High > 100 then some .highOutOfRange
  else if pt.Saturated < 0 ∨ pt.Saturated > 100 then some .saturatedOutOfRange
  else if pt.Low ≥ pt.Medium then some .lowNotBelowMedium
  else if pt.Medium ≥ pt.High then some .mediumNotBelowHigh
  else if pt.High ≥ pt.Saturated then some .highNotBelowSaturated
  else none

/-! ## Cluster snapshot model

A container record keeps the four optional quantity slots of
`c.Resources.Requests` / `c.Resources.Limits` (CPU in milli-units, memory in
bytes); `none` models a key absent from the map (a nil map behaves the
same).  A pod exposes namespace, name, the node it is scheduled on, and its
regular and init containers; a node exposes its allocatable quantities
(`ResourceList.Cpu()`/`.Memory()` return the zero quantity when the entry is
absent, so plain integers suffice). -/

structure GoContainer where
  name : String
  cpuRequest : Option ℤ
  memRequest : Option ℤ
  cpuLimit : Option ℤ
  memLimit : Option ℤ
deriving DecidableEq, Repr

structure Pod where
  ns : String
  name : String
  nodeName : String
  initContainers : List GoContainer
  containers : List GoContainer
deriving DecidableEq, Repr

structure Node where
  name : String
  cpuAllocatable : ℤ
  memAllocatable : ℤ
deriving DecidableEq, Repr

/-- The `if v, ok := m[key]; ok { acc += v }` idiom. -/
def addIfPresent (acc : ℤ) (q : Option ℤ) : ℤ :=
  match q with
  | some v => acc + v
  | none => acc

/-! ## Pressure pipeline (`pkg/capacity/pressure.go`) -/

structure NodePressure where
  NodeName : String
  CPUPressure : PressureLevel
  CPUUtilization : ℚ
  MemPressure : PressureLevel
  MemUtilization : ℚ
deriving DecidableEq, Repr

/-- `NamespacePressure`.  `CPUStatus`/`MemStatus` are formatted strings in
Go (`fmt.Sprintf("CPU %.0f%%", ...)`), set only in the high-utilization
branch; the embedding records whether the branch fired and with which
percentage, the digit formatting being a rendering concern no claim
touches. -/
structure NamespacePressure where
  Namespace : String
  CPUPercent : ℚ
  MemPercent : ℚ
  CPUStatus : Option ℚ
  MemStatus : Option ℚ
deriving DecidableEq, Repr

structure ClusterPressure where
  Overall : PressureLevel
  CPUUtilization : ℚ
  MemUtilization : ℚ
  NodePressures : List NodePressure
  NamespacePressures : List NamespacePressure
deriving DecidableEq, Repr

/-- `addPodResourcesForNode`: adds the pod's regular containers' requests to
the node totals; `pod.Spec.InitContainers` is never consulted. -/
def addPodResourcesForNode (cpuRequest memRequest : ℤ) (pod : Pod) : ℤ × ℤ :=
  pod.containers.foldl
    (fun acc c => (addIfPresent acc.1 c.cpuRequest, addIfPresent acc.2 c.memRequest))
    (cpuRequest, memRequest)

/-- `computeNodePressure` (pressure.go; part_009's
`calculateNodePressureWithThresholds` computes the same sums through
`resource.Quantity.Add`): utilization and level are set only when the
corresponding allocatable is positive, otherwise both keep their zero
values. -/
def computeNodePressure (node : Node) (pods : List Pod)
    (thresholds : PressureThresholds) : NodePressure :=
  let reqs := pods.foldl
    (fun acc p =>
      if p.nodeName = node.name then addPodResourcesForNode acc.1 acc.2 p else acc)
    ((0 : ℤ), (0 : ℤ))
  let np : NodePressure :=
    { NodeName := node.name, CPUPressure := .unset, CPUUtilization := 0,
      MemPressure := .unset, MemUtilization := 0 }
  let np :=
    if 0 < node.cpuAllocatable then
      let u : ℚ := (reqs.1 : ℚ) / (node.cpuAllocatable : ℚ) * 100
      { np with CPUUtilization := u, CPUPressure := getPressureLevel u thresholds }
    else np
  if 0 < node.memAllocatable then
    let u : ℚ := (reqs.2 : ℚ) / (node.memAllocatable : ℚ) * 100
    { np with MemUtilization := u, MemPressure := getPressureLevel u thresholds }
  else np

/-- `calculateNodePressures`: one `NodePressure` per node, in node order. -/
def calculateNodePressures (nodes : List Node) (pods : List Pod)
    (thresholds : PressureThresholds) : List NodePressure :=
  nodes.map (fun n => computeNodePressure n pods thresholds)

def emptyNamespacePressure (ns : String) : NamespacePressure :=
  { Namespace := ns, CPUPercent := 0, MemPercent := 0,
    CPUStatus := none, MemStatus := none }

/-- Applies `f` to the entry of `k`, leaving other entries unchanged
(`nsMap[ns]` update through a pointer in Go). -/
def updateAssoc {α β : Type} [DecidableEq α] (m : List (α × β)) (k : α)
    (f : β → β) : List (α × β) :=
  m.map (fun kv => if kv.1 = k then (kv.1, f kv.2) else kv)

/-- `aggregatePodResourcesByNamespace`: accumulates the pod's regular
containers' requests into `CPUPercent`/`MemPercent` (raw sums at this
stage). -/
def aggregatePodResourcesByNamespace (nsPressure : NamespacePressure)
    (pod : Pod) : NamespacePressure :=
  pod.containers.foldl
    (fun nsp c =>
      let nsp := match c.cpuRequest with
        | some v => { nsp with CPUPercent := nsp.CPUPercent + (v : ℚ) }
        | none => nsp
      match c.memRequest with
        | some v => { nsp with MemPercent := nsp.MemPercent + (v : ℚ) }
        | none => nsp)
    nsPressure

/-- `aggregateNamespaceResources`: the namespace map, modelled as an
association list in first-insertion order. -/
def aggregateNamespaceResources (pods : List Pod) :
    List (String × NamespacePressure) :=
  pods.foldl
    (fun nsMap pod =>
      let nsMap := if (nsMap.lookup pod.ns).isSome then nsMap
        else nsMap ++ [(pod.ns, emptyNamespacePressure pod.ns)]
      updateAssoc nsMap pod.ns (fun nsp => aggregatePodResourcesByNamespace nsp pod))
    []

structure AllocatableResources where
  CPU : ℤ
  Memory : ℤ
deriving DecidableEq, Repr

/-- `getTotalAllocatable`: sums allocatable resources across all nodes. -/
def getTotalAllocatable (nodes : List Node) : AllocatableResources :=
  nodes.foldl
    (fun total n =>
      { total with CPU := total.CPU + n.cpuAllocatable,
                   Memory := total.Memory + n.memAllocatable })
    { CPU := 0, Memory := 0 }

/-- The loop body of `calculateNamespacePressures` for one namespace:
convert the raw sums to percentages of the cluster-wide allocatable (only
when that total is positive) and set the status fields at the `High`
threshold. -/
def finalizeNamespacePressure (totalAllocatable : AllocatableResources)
    (thresholds : PressureThresholds) (nsp : NamespacePressure) :
    NamespacePressure :=
  let nsp := if 0 < totalAllocatable.CPU then
      { nsp with CPUPercent := nsp.CPUPercent / (totalAllocatable.CPU : ℚ) * 100 }
    else nsp
  let nsp := if 0 < totalAllocatable.Memory then
      { nsp with MemPercent := nsp.MemPercent / (totalAllocatable.Memory : ℚ) * 100 }
    else nsp
  let nsp := if nsp.CPUPercent ≥ thresholds.High then
      { nsp with CPUStatus := some nsp.CPUPercent }
    else nsp
  if nsp.MemPercent ≥ thresholds.High then
    { nsp with MemStatus := some nsp.MemPercent }
  else nsp

/-- `calculateNamespacePressures`: the Go code *ranges over the namespace
map*, an iteration order the language leaves unspecified; `nsOrder` makes
that order an explicit parameter (it is meaningful only as a permutation of
the map's keys). -/
def calculateNamespacePressures (nodes : List Node) (pods : List Pod)
    (thresholds : PressureThresholds) (nsOrder : List String) :
    List NamespacePressure :=
  let nsMap := aggregateNamespaceResources pods
  let totalAllocatable := getTotalAllocatable nodes
  nsOrder.filterMap (fun ns =>
    (nsMap.lookup ns).map (finalizeNamespacePressure totalAllocatable thresholds))

/-- `getTotalRequested`: sums the regular containers' requests across all
pods (init containers are not consulted). -/
def getTotalRequested (pods : List Pod) : AllocatableResources :=
  pods.foldl
    (fun total p =>
      p.containers.foldl
        (fun t c =>
          { t with CPU := addIfPresent t.CPU c.cpuRequest,
                   Memory := addIfPresent t.Memory c.memRequest })
        total)
    { CPU := 0, Memory := 0 }

/-- `findMaxNodePressures`: folds the combinator over all node levels,
starting from the zero value. -/
def findMaxNodePressures (nodePressures : List NodePressure) :
    PressureLevel × PressureLevel :=
  nodePressures.foldl
    (fun acc np =>
      (combinePressureLevels np.CPUPressure acc.1,
       combinePressureLevels np.MemPressure acc.2))
    (.unset, .unset)

/-- `calculateClusterPressure` (pressure.go): `Overall` is the combination
of the worst per-node CPU level and the worst per-node memory level; the
cluster-wide utilization percentages are computed afterwards and are never
classified. -/
def calculateClusterPressure (pressure : ClusterPressure) (nodes : List Node)
    (pods : List Pod) : ClusterPressure :=
  let maxes := findMaxNodePressures pressure.NodePressures
  let pressure := { pressure with Overall := combinePressureLevels maxes.1 maxes.2 }
  let totalAllocatable := getTotalAllocatable nodes
  let totalRequested := getTotalRequested pods
  let pressure := if 0 < totalAllocatable.CPU then
      { pressure with
        CPUUtilization := (totalRequested.CPU : ℚ) / (totalAllocatable.CPU : ℚ) * 100 }
    else pressure
  if 0 < totalAllocatable.Memory then
    { pressure with
      MemUtilization := (totalRequested.Memory : ℚ) / (totalAllocatable.Memory : ℚ) * 100 }
  else pressure

/-- `CalculatePressureWithThresholds` (pressure.go), with the cluster fetch
replaced by the already-fetched snapshot and the namespace-map iteration
order an explicit parameter. -/
def CalculatePressureWithThresholds (nodes : List Node) (pods : List Pod)
    (thresholds : PressureThresholds) (nsOrder : List String) :
    ClusterPressure :=
  let pressure : ClusterPressure :=
    { Overall := .unset, CPUUtilization := 0, MemUtilization := 0,
      NodePressures := [], NamespacePressures := [] }
  let pressure :=
    { pressure with NodePressures := calculateNodePressures nodes pods thresholds }
  let pressure :=
    { pressure with
      NamespacePressures := calculateNamespacePressures nodes pods thresholds nsOrder }
  calculateClusterPressure pressure nodes pods

/-- The overall computation of part_009's `CalculatePressureWithThresholds`:
the same worst-of fold written with `prioritizePressure` and an explicit
comparison, followed by mapping the zero value to `LOW`. -/
def legacyOverall (nodePressures : List NodePressure) : PressureLevel :=
  let maxes := nodePressures.foldl
    (fun acc np =>
      (if prioritizePressure np.CPUPressure acc.1 = np.CPUPressure
        then np.CPUPressure else acc.1,
       if prioritizePressure np.MemPressure acc.2 = np.MemPressure
        then np.MemPressure else acc.2))
    (.unset, .unset)
  let overall := prioritizePressure maxes.1 maxes.2
  if overall = .unset then .low else overall

/-- The claim's reading of `Overall` — the `Combine` of the cluster-level
CPU pressure level, the cluster-level memory pressure level, and the worst
level seen at any single node — written out from the spec's words for
comparison against the code. -/
def specClaimOverall (cp : ClusterPressure) (t : PressureThresholds) :
    PressureLevel :=
  combinePressureLevels
    (combinePressureLevels (getPressureLevel cp.CPUUtilization t)
      (getPressureLevel cp.MemUtilization t))
    ((cp.NodePressures.map
        (fun np => combinePressureLevels np.CPUPressure np.MemPressure)).foldl
      combinePressureLevels .unset)

/-! ## Cluster capacity summary (part_010)

Only the request/limit aggregation over pods is needed here (for the
init-container contrast of the pressure functions); the node capacity sums
are irrelevant to every claim. -/

structure ClusterCapacitySummary where
  TotalCPURequests : ℤ
  TotalCPULimits : ℤ
  TotalMemRequests : ℤ
  TotalMemLimits : ℤ
deriving DecidableEq, Repr

/-- `sumContainerResources` (part_010). -/
def sumContainerResources (summary : ClusterCapacitySummary)
    (containers : List GoContainer) : ClusterCapacitySummary :=
  containers.foldl
    (fun s c =>
      { s with
        TotalCPURequests := addIfPresent s.TotalCPURequests c.cpuRequest,
        TotalMemRequests := addIfPresent s.TotalMemRequests c.memRequest,
        TotalCPULimits := addIfPresent s.TotalCPULimits c.cpuLimit,
        TotalMemLimits := addIfPresent s.TotalMemLimits c.memLimit })
    summary

/-- `sumPodResources` (part_010): regular *and* init containers. -/
def sumPodResources (summary : ClusterCapacitySummary) (pods : List Pod) :
    ClusterCapacitySummary :=
  pods.foldl
    (fun s pod => sumContainerResources (sumContainerResources s pod.containers)
      pod.initContainers)
    summary

/-! ## Inventory aggregator (part_008, `pkg/resources`) -/

/-- `ContainerResources` (field layout from the package's type
declarations); quantities keep their Go zero value when the corresponding
`Has*` flag is false. -/
structure ContainerResources where
  Namespace : String
  PodName : String
  ContainerName : String
  IsInit : Bool
  CPURequest : ℤ
  CPULimit : ℤ
  MemRequest : ℤ
  MemLimit : ℤ
  HasCPURequest : Bool
  HasCPULimit : Bool
  HasMemRequest : Bool
  HasMemLimit : Bool
deriving DecidableEq, Repr

/-- `extractContainerResources`: each of the four slots is copied, and its
flag set, exactly when the key is present in the map. -/
def extractContainerResources (ns podName : String) (c : GoContainer)
    (isInit : Bool) : ContainerResources :=
  { Namespace := ns, PodName := podName, ContainerName := c.name,
    IsInit := isInit,
    CPURequest := c.cpuRequest.getD 0, HasCPURequest := c.cpuRequest.isSome,
    CPULimit := c.cpuLimit.getD 0, HasCPULimit := c.cpuLimit.isSome,
    MemRequest := c.memRequest.getD 0, HasMemRequest := c.memRequest.isSome,
    MemLimit := c.memLimit.getD 0, HasMemLimit := c.memLimit.isSome }

structure NamespaceInventory where
  Namespace : String
  ContainersTotal : Nat
  ContainersMissingAnyRequests : Nat
  ContainersMissingAnyLimits : Nat
  CPURequestsTotal : ℤ
  CPULimitsTotal : ℤ
  MemRequestsTotal : ℤ
  MemLimitsTotal : ℤ
deriving DecidableEq, Repr

def emptyNamespaceInventory (ns : String) : NamespaceInventory :=
  { Namespace := ns, ContainersTotal := 0, ContainersMissingAnyRequests := 0,
    ContainersMissingAnyLimits := 0, CPURequestsTotal := 0,
    CPULimitsTotal := 0, MemRequestsTotal := 0, MemLimitsTotal := 0 }

/-- `addToNamespaceInventory` (part_008). -/
def addToNamespaceInventory (inv : NamespaceInventory)
    (cr : ContainerResources) : NamespaceInventory :=
  let inv := { inv with ContainersTotal := inv.ContainersTotal + 1 }
  let inv := if !cr.HasCPURequest && !cr.HasMemRequest then
      { inv with
        ContainersMissingAnyRequests := inv.ContainersMissingAnyRequests + 1 }
    else inv
  let inv := if !cr.HasCPULimit && !cr.HasMemLimit then
      { inv with
        ContainersMissingAnyLimits := inv.ContainersMissingAnyLimits + 1 }
    else inv
  let inv := if cr.HasCPURequest then
      { inv with CPURequestsTotal := inv.CPURequestsTotal + cr.CPURequest }
    else inv
  let inv := if cr.HasCPULimit then
      { inv with CPULimitsTotal := inv.CPULimitsTotal + cr.CPULimit }
    else inv
  let inv := if cr.HasMemRequest then
      { inv with MemRequestsTotal := inv.MemRequestsTotal + cr.MemRequest }
    else inv
  if cr.HasMemLimit then
    { inv with MemLimitsTotal := inv.MemLimitsTotal + cr.MemLimit }
  else inv

/-- The records one pod contributes, in loop order: the Go loop walks
`InitContainers` before `Containers`. -/
def podRecords (pod : Pod) : List ContainerResources :=
  pod.initContainers.map (fun c => extractContainerResources pod.ns pod.name c true)
    ++ pod.containers.map (fun c => extractContainerResources pod.ns pod.name c false)

/-- All extracted records of a pod list, in loop order. -/
def allRecords (pods : List Pod) : List ContainerResources :=
  pods.flatMap podRecords

/-- One iteration of the pod loop of `BuildInventory`: create the namespace
entry if absent (even for a pod with no containers), extract the pod's
records, append them to `allContainers` and add each to the pod's namespace
entry. -/
def invStep (acc : List ContainerResources × List (String × NamespaceInventory))
    (pod : Pod) : List ContainerResources × List (String × NamespaceInventory) :=
  let nsMap := if (acc.2.lookup pod.ns).isSome then acc.2
    else acc.2 ++ [(pod.ns, emptyNamespaceInventory pod.ns)]
  let recs := podRecords pod
  (acc.1 ++ recs,
   recs.foldl
    (fun m cr => updateAssoc m pod.ns (fun inv => addToNamespaceInventory inv cr))
    nsMap)

/-- The pod loop of `BuildInventory`: accumulates `allContainers` and the
namespace map (an association list in first-insertion order). -/
def inventoryFold (pods : List Pod) :
    List ContainerResources × List (String × NamespaceInventory) :=
  pods.foldl invStep ([], [])

/-- The `sort.Slice` comparator for the container list: namespace, pod
name, container name, then `a.IsInit && !b.IsInit`. -/
def crLess (a b : ContainerResources) : Bool :=
  if a.Namespace ≠ b.Namespace then decide (a.Namespace < b.Namespace)
  else if a.PodName ≠ b.PodName then decide (a.PodName < b.PodName)
  else if a.ContainerName ≠ b.ContainerName then decide (a.ContainerName < b.ContainerName)
  else a.IsInit && !b.IsInit

/-- `sort.Slice(allContainers, ...)`: a sorted permutation under the
comparator, modelled by insertion sort on the comparator's complement. -/
def sortContainers (l : List ContainerResources) : List ContainerResources :=
  List.insertionSort (fun a b => crLess b a = false) l

/-- `BuildInventory` restricted to its pod-derived outputs (the LimitRange
and ResourceQuota summaries are carried through opaquely and no claim
touches them), with the `for k := range nsMap` key-collection order an
explicit parameter, as for the pressure pipeline. -/
def BuildInventoryWithOrder (pods : List Pod) (nsOrder : List String) :
    List NamespaceInventory × List ContainerResources :=
  let acc := inventoryFold pods
  let nsKeys := List.insertionSort (fun a b : String => a ≤ b) nsOrder
  let nsInventories := nsKeys.filterMap (fun ns => acc.2.lookup ns)
  (nsInventories, sortContainers acc.1)

/-- `BuildInventory` at the canonical (first-insertion) key order; the
run-to-run determinism claim is exactly that the choice of `nsOrder` among
permutations of the keys does not matter. -/
def BuildInventory (pods : List Pod) :
    List NamespaceInventory × List ContainerResources :=
  BuildInventoryWithOrder pods ((inventoryFold pods).2.map Prod.fst)

/-! ## Usage reconciler (`pkg/resources/diff.go`) -/

structure ContainerUsage where
  Namespace : String
  PodName : String
  ContainerName : String
  CPUUsage : ℤ
  MemUsage : ℤ
deriving DecidableEq, Repr

/-- `ContainerDiff`.  The two ratio fields are `float64` in Go, left at
their zero value whenever the guarded assignment does not fire; the
embedding uses `Option ℚ` (`none` = never assigned) so that "computed" is
observable. -/
structure ContainerDiff where
  Namespace : String
  PodName : String
  ContainerName : String
  CPUUsage : ℤ
  CPURequest : ℤ
  CPULimit : ℤ
  HasCPURequest : Bool
  HasCPULimit : Bool
  MemUsage : ℤ
  MemRequest : ℤ
  MemLimit : ℤ
  HasMemRequest : Bool
  HasMemLimit : Bool
  CPUUsageToRequest : Option ℚ
  MemUsageToRequest : Option ℚ
deriving DecidableEq, Repr

/-- The zero value of `ContainerUsage`, produced by a missed map lookup. -/
def zeroContainerUsage : ContainerUsage :=
  { Namespace := "", PodName := "", ContainerName := "",
    CPUUsage := 0, MemUsage := 0 }

def usageKey (u : ContainerUsage) : String × String × String :=
  (u.Namespace, u.PodName, u.ContainerName)

/-- Go map assignment: overwrite the entry if the key exists, else add. -/
def mapInsert {α β : Type} [DecidableEq α] (m : List (α × β)) (k : α)
    (v : β) : List (α × β) :=
  if (m.lookup k).isSome then updateAssoc m k (fun _ => v) else m ++ [(k, v)]

/-- The loop body of `BuildDiff` for one inventory record: the usage lookup
falls back to the zero value, and each ratio is assigned only under
`Has*Request && !request.IsZero()`. -/
def diffOf (usageMap : List ((String × String × String) × ContainerUsage))
    (cr : ContainerResources) : ContainerDiff :=
  let u := (usageMap.lookup (cr.Namespace, cr.PodName, cr.ContainerName)).getD
    zeroContainerUsage
  let diff : ContainerDiff :=
    { Namespace := cr.Namespace, PodName := cr.PodName,
      ContainerName := cr.ContainerName,
      CPUUsage := u.CPUUsage, CPURequest := cr.CPURequest,
      CPULimit := cr.CPULimit,
      HasCPURequest := cr.HasCPURequest, HasCPULimit := cr.HasCPULimit,
      MemUsage := u.MemUsage, MemRequest := cr.MemRequest,
      MemLimit := cr.MemLimit,
      HasMemRequest := cr.HasMemRequest, HasMemLimit := cr.HasMemLimit,
      CPUUsageToRequest := none, MemUsageToRequest := none }
  let diff := if cr.HasCPURequest && !(cr.CPURequest == 0) then
      { diff with
        CPUUsageToRequest := some ((u.CPUUsage : ℚ) / (cr.CPURequest : ℚ)) }
    else diff
  if cr.HasMemRequest && !(cr.MemRequest == 0) then
    { diff with
      MemUsageToRequest := some ((u.MemUsage : ℚ) / (cr.MemRequest : ℚ)) }
  else diff

/-- The `sort.Slice` comparator for diffs: namespace, pod name, container
name (no init tie-break). -/
def dLess (a b : ContainerDiff) : Bool :=
  if a.Namespace ≠ b.Namespace then decide (a.Namespace < b.Namespace)
  else if a.PodName ≠ b.PodName then decide (a.PodName < b.PodName)
  else decide (a.ContainerName < b.ContainerName)

/-- `BuildDiff` (diff.go). -/
def BuildDiff (inventory : List ContainerResources)
    (usage : List ContainerUsage) : List ContainerDiff :=
  let usageMap := usage.foldl (fun m u => mapInsert m (usageKey u) u) []
  let diffs := inventory.map (diffOf usageMap)
  List.insertionSort (fun a b => dLess b a = false) diffs

/-- The sort key the container comparator realises: lexicographic on
namespace, pod name, container name, then init-ness (with `!IsInit` so that
`false`, i.e. an init container, sorts first). -/
def crKey (cr : ContainerResources) :
    Lex (String × Lex (String × Lex (String × Bool))) :=
  toLex (cr.Namespace, toLex (cr.PodName, toLex (cr.ContainerName, !cr.IsInit)))

/-- The container order as the claim words it: ascending by namespace, then
pod name, then container name, with REGULAR containers ordered before init
containers when all three names are equal.  A pair `(a, b)` may appear in
this order iff this predicate holds. -/
def specContainerOrderOK (a b : ContainerResources) : Bool :=
  if a.Namespace ≠ b.Namespace then decide (a.Namespace < b.Namespace)
  else if a.PodName ≠ b.PodName then decide (a.PodName < b.PodName)
  else if a.ContainerName ≠ b.ContainerName then
    decide (a.ContainerName < b.ContainerName)
  else !(a.IsInit && !b.IsInit)

/-! ## Concrete snapshots used by witnesses and counterexamples -/

/-- A container that only requests 100 milli-CPU. -/
def cpuOnlyContainer : GoContainer :=
  { name := "init", cpuRequest := some 100, memRequest := none,
    cpuLimit := none, memLimit := none }

/-- A pod whose only container is an init container. -/
def initOnlyPod : Pod :=
  { ns := "default", name := "p", nodeName := "n",
    initContainers := [cpuOnlyContainer], containers := [] }

/-- A node with 1000 milli-CPU allocatable and no memory entry. -/
def nodeOneCpu : Node :=
  { name := "node1", cpuAllocatable := 1000, memAllocatable := 0 }

/-- A pod requesting 2000 milli-CPU that is scheduled on no node
(`Spec.NodeName` empty). -/
def bigRequestContainer : GoContainer :=
  { name := "c1", cpuRequest := some 2000, memRequest := none,
    cpuLimit := none, memLimit := none }

def unscheduledPod : Pod :=
  { ns := "default", name := "p1", nodeName := "",
    initContainers := [], containers := [bigRequestContainer] }

/-- A pod requesting 2000 milli-CPU scheduled on `node1`. -/
def scheduledPod : Pod :=
  { ns := "default", name := "p1", nodeName := "node1",
    initContainers := [], containers := [bigRequestContainer] }

/-- A pod carrying an init container and a regular container of the same
name. -/
def bareContainerX : GoContainer :=
  { name := "x", cpuRequest := none, memRequest := none,
    cpuLimit := none, memLimit := none }

def tieBreakPod : Pod :=
  { ns := "default", name := "p", nodeName := "",
    initContainers := [bareContainerX], containers := [bareContainerX] }

/-- Two pods in two different namespaces. -/
def smallContainer1 : GoContainer :=
  { name := "c", cpuRequest := some 1, memRequest := none,
    cpuLimit := none, memLimit := none }

def smallContainer2 : GoContainer :=
  { name := "c", cpuRequest := some 2, memRequest := none,
    cpuLimit := none, memLimit := none }

def podInA : Pod :=
  { ns := "a", name := "pa", nodeName := "",
    initContainers := [], containers := [smallContainer1] }

def podInB : Pod :=
  { ns := "b", name := "pb", nodeName := "",
    initContainers := [], containers := [smallContainer2] }

/-- The node pressure `computeNodePressure` produces for `nodeOneCpu`
against `unscheduledPod` (nothing scheduled on the node). -/
def cexNodePressure : NodePressure :=
  { NodeName := "node1", CPUPressure := .low, CPUUtilization := 0,
    MemPressure := .unset, MemUtilization := 0 }

/-- The namespace pressure produced for `unscheduledPod`'s namespace. -/
def cexNamespacePressure : NamespacePressure :=
  { Namespace := "default", CPUPercent := 200, MemPercent := 0,
    CPUStatus := some 200, MemStatus := none }

/-- The node pressure produced for `nodeOneCpu` against `scheduledPod`. -/
def satNodePressure : NodePressure :=
  { NodeName := "node1", CPUPressure := .saturated, CPUUtilization := 200,
    MemPressure := .unset, MemUtilization := 0 }

/-- The namespace pressures produced for `podInA` / `podInB` with no nodes
(raw request sums; no allocatable, so no percentage conversion and no
status). -/
def nsPressureA : NamespacePressure :=
  { Namespace := "a", CPUPercent := 1, MemPercent := 0,
    CPUStatus := none, MemStatus := none }

def nsPressureB : NamespacePressure :=
  { Namespace := "b", CPUPercent := 2, MemPercent := 0,
    CPUStatus := none, MemStatus := none }

/-- The namespace inventory `BuildInventory` produces for `initOnlyPod`. -/
def initOnlyInventory : NamespaceInventory :=
  { Namespace := "default", ContainersTotal := 1,
    ContainersMissingAnyRequests := 0, ContainersMissingAnyLimits := 1,
    CPURequestsTotal := 100, CPULimitsTotal := 0,
    MemRequestsTotal := 0, MemLimitsTotal := 0 }

/-- An inventory record with a 200 milli-CPU request and nothing else. -/
def cpuRequestRecord : ContainerResources :=
  { Namespace := "default", PodName := "pod1", ContainerName := "c1",
    IsInit := false, CPURequest := 200, CPULimit := 0, MemRequest := 0,
    MemLimit := 0, HasCPURequest := true, HasCPULimit := false,
    HasMemRequest := false, HasMemLimit := false }

/-- A usage record of 100 milli-CPU matching `cpuRequestRecord`. -/
def halfUsageRecord : ContainerUsage :=
  { Namespace := "default", PodName := "pod1", ContainerName := "c1",
    CPUUsage := 100, MemUsage := 0 }

/-- `combinePressureLevels` is right-commutative as a fold step, over the
whole type (zero value included). -/
theorem combine_right_comm (b : PressureLevel) (a₁ a₂ : PressureLevel) :
    combinePressureLevels (combinePressureLevels b a₁) a₂
      = combinePressureLevels (combinePressureLevels b a₂) a₁ := by
  revert b a₁ a₂; decide

/-- Rank of a combination is the maximum of the ranks. -/
theorem pressureOrder_combine (a b : PressureLevel) :
    pressureOrder (combinePressureLevels a b)
      = Nat.max (pressureOrder a) (pressureOrder b) := by
  revert a b; decide

/-- Folding `combinePressureLevels` yields an element of the inputs whose
rank is the running maximum. -/
theorem foldl_combine_mem_and_rank (a : PressureLevel)
    (l : List PressureLevel) :
    l.foldl combinePressureLevels a ∈ a :: l ∧
      pressureOrder (l.foldl combinePressureLevels a)
        = (l.map pressureOrder).foldl Nat.max (pressureOrder a) := by
  induction l generalizing a with
  | nil => exact ⟨List.mem_singleton.mpr rfl, rfl⟩
  | cons x xs ih =>
    have hfold : List.foldl combinePressureLevels a (x :: xs)
        = List.foldl combinePressureLevels (combinePressureLevels a x) xs := rfl
    refine ⟨?_, ?_⟩
    · rcases List.mem_cons.mp (ih (combinePressureLevels a x)).1 with h | h
      · have hax : combinePressureLevels a x = a ∨ combinePressureLevels a x = x := by
          unfold combinePressureLevels; split <;> simp
        rcases hax with h' | h'
        · rw [hfold, h, h']; exact List.mem_cons_self _ _
        · rw [hfold, h, h']
          exact List.mem_cons_of_mem _ (List.mem_cons_self _ _)
      · rw [hfold]
        exact List.mem_cons_of_mem _ (List.mem_cons_of_mem _ h)
    · rw [hfold, (ih (combinePressureLevels a x)).2, pressureOrder_combine]
      rfl

/-- C2: on the four-level domain the combinator returns the argument of
higher rank; it agrees with its twin `prioritizePressure`; it is commutative
there and associative everywhere; folding it is invariant under permutation
of the list and computes the multiset's maximum (an element of the inputs of
maximal rank); and the two concrete examples hold. -/
theorem c2_combine_is_max :
    (∀ a b, prioritizePressure a b = combinePressureLevels a b) ∧
    (∀ a b : PressureLevel,
      (combinePressureLevels a b = a ∨ combinePressureLevels a b = b) ∧
      pressureOrder (combinePressureLevels a b)
        = Nat.max (pressureOrder a) (pressureOrder b)) ∧
    (∀ a b, properLevel a → properLevel b →
      combinePressureLevels a b = combinePressureLevels b a) ∧
    (∀ a b c : PressureLevel,
      combinePressureLevels (combinePressureLevels a b) c
        = combinePressureLevels a (combinePressureLevels b c)) ∧
    (∀ (a : PressureLevel) (l₁ l₂ : List PressureLevel), l₁.Perm l₂ →
      l₁.foldl combinePressureLevels a = l₂.foldl combinePressureLevels a) ∧
    (∀ (a : PressureLevel) (l : List PressureLevel),
      l.foldl combinePressureLevels a ∈ a :: l ∧
      pressureOrder (l.foldl combinePressureLevels a)
        = (l.map pressureOrder).foldl Nat.max (pressureOrder a)) ∧
    combinePressureLevels .low .high = .high ∧
    combinePressureLevels .saturated .saturated = .saturated := by
  refine ⟨by decide, by decide, ?_, by decide, ?_, foldl_combine_mem_and_rank,
    by decide, by decide⟩
  · intro a b ha hb
    cases a <;> cases b <;>
      first | rfl | exact absurd rfl ha | exact absurd rfl hb
  · intro a l₁ l₂ h
    exact @List.Perm.foldl_eq _ _ _ _ _ ⟨combine_right_comm⟩ h a

/-- Witness for `c2_combine_is_max`: commutativity and permutation
invariance applied at concrete levels. -/
theorem c2_combine_is_max_witness :
    combinePressureLevels .low .medium = combinePressureLevels .medium .low ∧
    [PressureLevel.low, .saturated, .medium].foldl combinePressureLevels .low
      = [PressureLevel.medium, .low, .saturated].foldl combinePressureLevels .low := by
  constructor
  · exact c2_combine_is_max.2.2.1 .low .medium (by simp [properLevel])
      (by simp [properLevel])
  · exact c2_combine_is_max.2.2.2.2.1 .low _ _ (by decide)

/-- C1: both classifiers implement exactly the spec's top-down comparison
(for every utilization and every threshold configuration); for ordered
thresholds, everything strictly below `medium` — the `low` threshold
included — is `LOW` and there is no level below `LOW` (the classifier never
returns the zero value); utilization exactly at a threshold classifies at
that threshold's level; and `200` against the default thresholds is
`SATURATED`. -/
theorem c1_pressure_classifier :
    (∀ (u : ℚ) (t : PressureThresholds),
      getPressureLevel u t = specClassify u t ∧
      calculatePressureLevelWithThresholds u t = specClassify u t) ∧
    (∀ (u : ℚ) (t : PressureThresholds), t.Medium < t.High →
      t.High < t.Saturated → u < t.Medium → getPressureLevel u t = .low) ∧
    (∀ (u : ℚ) (t : PressureThresholds), getPressureLevel u t ≠ .unset) ∧
    (∀ t : PressureThresholds, t.Low < t.Medium → t.Medium < t.High →
      t.High < t.Saturated →
      getPressureLevel t.Low t = .low ∧
      getPressureLevel t.Medium t = .medium ∧
      getPressureLevel t.High t = .high ∧
      getPressureLevel t.Saturated t = .saturated) ∧
    getPressureLevel 200 DefaultPressureThresholds = .saturated := by
  refine ⟨?_, ?_, ?_, ?_, by decide⟩
  · intro u t
    constructor
    · unfold getPressureLevel specClassify
      split_ifs <;> rfl
    · unfold calculatePressureLevelWithThresholds specClassify
      split_ifs <;> rfl
  · intro u t h1 h2 h3
    unfold getPressureLevel
    split_ifs with hs hh hm hl
    · exact absurd hs (by push_neg; linarith)
    · exact absurd hh (by push_neg; linarith)
    · exact absurd hm (by push_neg; linarith)
    · rfl
    · rfl
  · intro u t
    unfold getPressureLevel
    split_ifs <;> simp
  · intro t h1 h2 h3
    refine ⟨?_, ?_, ?_, ?_⟩ <;>
      · unfold getPressureLevel
        split_ifs <;> first | rfl | linarith


theorem c1_pressure_classifier_witness :
    getPressureLevel 49 DefaultPressureThresholds = .low ∧
    getPressureLevel 75 DefaultPressureThresholds = .medium := by
  constructor
  · exact c1_pressure_classifier.2.1 49 DefaultPressureThresholds (by decide)
      (by decide) (by decide)
  · exact (c1_pressure_classifier.2.2.2.1 DefaultPressureThresholds (by decide)
      (by decide) (by decide)).2.1

/-- C4: `Validate` returns an error exactly when some threshold value lies
outside `[0,100]` or the strict ordering `low < medium < high < saturated`
is violated; being a pure function of the (only-read) receiver it clamps
nothing; `{50,75,90,100}` is accepted while `{50,90,90,100}` and
`{-10,75,90,100}` are rejected. -/
theorem c4_validate_iff :
    (∀ pt : PressureThresholds,
      pt.Validate = none ↔
        (0 ≤ pt.Low ∧ pt.Low ≤ 100 ∧ 0 ≤ pt.Medium ∧ pt.Medium ≤ 100 ∧
         0 ≤ pt.High ∧ pt.High ≤ 100 ∧ 0 ≤ pt.Saturated ∧ pt.Saturated ≤ 100 ∧
         pt.Low < pt.Medium ∧ pt.Medium < pt.High ∧ pt.High < pt.Saturated)) ∧
    PressureThresholds.Validate { Low := 50, Medium := 75, High := 90, Saturated := 100 } = none ∧
    (PressureThresholds.Validate { Low := 50, Medium := 90, High := 90, Saturated := 100 }).isSome = true ∧
    (PressureThresholds.Validate { Low := -10, Medium := 75, High := 90, Saturated := 100 }).isSome = true := by
  refine ⟨?_, by decide, by decide, by decide⟩
  intro pt
  constructor
  · intro h
    unfold PressureThresholds.Validate at h
    split_ifs at h with h1 h2 h3 h4 h5 h6 h7
    push_neg at h1 h2 h3 h4 h5 h6 h7
    exact ⟨h1.1, h1.2, h2.1, h2.2, h3.1, h3.2, h4.1, h4.2, h5, h6, h7⟩
  · rintro ⟨hl0, hl1, hm0, hm1, hh0, hh1, hs0, hs1, hlm, hmh, hhs⟩
    unfold PressureThresholds.Validate
    rw [if_neg (by push_neg; exact ⟨hl0, hl1⟩),
      if_neg (by push_neg; exact ⟨hm0, hm1⟩),
      if_neg (by push_neg; exact ⟨hh0, hh1⟩),
      if_neg (by push_neg; exact ⟨hs0, hs1⟩),
      if_neg (not_le.mpr hlm), if_neg (not_le.mpr hmh), if_neg (not_le.mpr hhs)]

/-- Folding over pods is unchanged by erasing init containers when the fold
step never reads them. -/
theorem foldl_initErase {β : Type} (f : β → Pod → β)
    (hf : ∀ b p, f b { p with initContainers := [] } = f b p) :
    ∀ (l : List Pod) (b : β),
      (l.map (fun p => { p with initContainers := [] })).foldl f b = l.foldl f b := by
  intro l
  induction l with
  | nil => intro b; rfl
  | cons p ps ih => intro b; simp only [List.map_cons, List.foldl_cons, hf, ih]

/-- C10: the three pressure aggregation functions iterate
`pod.Spec.Containers` only — each is invariant under replacing the init
containers — while the cluster capacity summary and the inventory do count
init containers (shown on a pod whose only container is an init container
requesting 100 milli-CPU). -/
theorem c10_pressure_ignores_init_containers :
    (∀ (cpuRequest memRequest : ℤ) (p : Pod) (l : List GoContainer),
      addPodResourcesForNode cpuRequest memRequest { p with initContainers := l }
        = addPodResourcesForNode cpuRequest memRequest p) ∧
    (∀ (nsp : NamespacePressure) (p : Pod) (l : List GoContainer),
      aggregatePodResourcesByNamespace nsp { p with initContainers := l }
        = aggregatePodResourcesByNamespace nsp p) ∧
    (∀ pods : List Pod,
      getTotalRequested (pods.map (fun p => { p with initContainers := [] }))
        = getTotalRequested pods) ∧
    getTotalRequested [initOnlyPod] = { CPU := 0, Memory := 0 } ∧
    (sumPodResources
      { TotalCPURequests := 0, TotalCPULimits := 0,
        TotalMemRequests := 0, TotalMemLimits := 0 }
      [initOnlyPod]).TotalCPURequests = 100 ∧
    (BuildInventory [initOnlyPod]).1
      = [{ Namespace := "default", ContainersTotal := 1,
           ContainersMissingAnyRequests := 0, ContainersMissingAnyLimits := 1,
           CPURequestsTotal := 100, CPULimitsTotal := 0,
           MemRequestsTotal := 0, MemLimitsTotal := 0 }] := by
  refine ⟨fun _ _ _ _ => rfl, fun _ _ _ => rfl, ?_, by decide, by decide, by decide⟩
  intro pods
  unfold getTotalRequested
  apply foldl_initErase
  intro b p
  rfl

/-- C8 amended: a ratio is computed exactly when the corresponding request
flag is set and the request is non-zero — never a division by zero, and
`none` (the never-assigned zero value) when the request is absent or zero.
The usage side falls back to the zero value on a missed lookup, so the
usage fields of an unmatched record are zero, and an unmatched record whose
request is present and non-zero gets ratio `0`, not an undefined field.
The spec's worked example holds: request 200m and usage 100m give a CPU
ratio of exactly 1/2. -/
theorem c8_amended_diff_ratios :
    (∀ (m : List ((String × String × String) × ContainerUsage))
       (cr : ContainerResources),
      (cr.HasCPURequest = true → cr.CPURequest ≠ 0 →
        (diffOf m cr).CPUUsageToRequest
          = some ((((m.lookup (cr.Namespace, cr.PodName, cr.ContainerName)).getD
              zeroContainerUsage).CPUUsage : ℚ) / (cr.CPURequest : ℚ))) ∧
      (cr.HasCPURequest = false ∨ cr.CPURequest = 0 →
        (diffOf m cr).CPUUsageToRequest = none) ∧
      (cr.HasMemRequest = true → cr.MemRequest ≠ 0 →
        (diffOf m cr).MemUsageToRequest
          = some ((((m.lookup (cr.Namespace, cr.PodName, cr.ContainerName)).getD
              zeroContainerUsage).MemUsage : ℚ) / (cr.MemRequest : ℚ))) ∧
      (cr.HasMemRequest = false ∨ cr.MemRequest = 0 →
        (diffOf m cr).MemUsageToRequest = none) ∧
      (m.lookup (cr.Namespace, cr.PodName, cr.ContainerName) = none →
        (diffOf m cr).CPUUsage = 0 ∧ (diffOf m cr).MemUsage = 0)) ∧
    (BuildDiff [cpuRequestRecord] [halfUsageRecord]).map
      (fun d => d.CPUUsageToRequest) = [some (1 / 2)] := by
  constructor
  · intro m cr
    refine ⟨?_, ?_, ?_, ?_, ?_⟩
    · intro hflag hnz
      simp [diffOf, apply_ite ContainerDiff.CPUUsageToRequest, hflag, hnz]
    · intro h
      rcases h with h | h <;>
        simp [diffOf, apply_ite ContainerDiff.CPUUsageToRequest, h]
    · intro hflag hnz
      simp [diffOf, apply_ite ContainerDiff.MemUsageToRequest, hflag, hnz]
    · intro h
      rcases h with h | h <;>
        simp [diffOf, apply_ite ContainerDiff.MemUsageToRequest, h]
    · intro hmiss
      constructor <;>
        simp [diffOf, hmiss, zeroContainerUsage,
          apply_ite ContainerDiff.CPUUsage, apply_ite ContainerDiff.MemUsage]
  · simp only [BuildDiff, diffOf, mapInsert, usageKey, updateAssoc,
      zeroContainerUsage, cpuRequestRecord, halfUsageRecord,
      List.foldl_cons, List.foldl_nil, List.lookup,
      List.insertionSort, List.orderedInsert, List.map_cons, List.map_nil]
    norm_num

/-- C8 counterexample: for an inventory record with a present, non-zero CPU
request and an empty usage list (so no usage record matches), `BuildDiff`
*computes* the CPU ratio — it is `0`, not left undefined as the claim
states. -/
theorem c8_counterexample_unmatched_usage :
    (BuildDiff [cpuRequestRecord] []).map (fun d => d.CPUUsageToRequest)
      = [some 0] ∧
    ¬ ((BuildDiff [cpuRequestRecord] []).map (fun d => d.CPUUsageToRequest)
      = [none]) := by
  constructor <;>
    simp [BuildDiff, diffOf, cpuRequestRecord, zeroContainerUsage,
      List.insertionSort, List.orderedInsert]

/-- The assembled pipeline's node-pressure list is the per-node
computation. -/
theorem calcPressure_nodePressures (nodes : List Node) (pods : List Pod)
    (t : PressureThresholds) (nsOrder : List String) :
    (CalculatePressureWithThresholds nodes pods t nsOrder).NodePressures
      = calculateNodePressures nodes pods t := by
  simp [CalculatePressureWithThresholds, calculateClusterPressure,
    apply_ite ClusterPressure.NodePressures]

/-- The assembled pipeline's `Overall` is the combination of the two
node-level maxima. -/
theorem calcPressure_overall (nodes : List Node) (pods : List Pod)
    (t : PressureThresholds) (nsOrder : List String) :
    (CalculatePressureWithThresholds nodes pods t nsOrder).Overall
      = combinePressureLevels
          (findMaxNodePressures (calculateNodePressures nodes pods t)).1
          (findMaxNodePressures (calculateNodePressures nodes pods t)).2 := by
  simp [CalculatePressureWithThresholds, calculateClusterPressure,
    apply_ite ClusterPressure.Overall]

/-- Rank of the worst-of fold: the running maximum of per-node ranks. -/
theorem findMax_fold_rank :
    ∀ (l : List NodePressure) (a b : PressureLevel),
      pressureOrder (combinePressureLevels
        (l.foldl (fun acc np => (combinePressureLevels np.CPUPressure acc.1,
          combinePressureLevels np.MemPressure acc.2)) (a, b)).1
        (l.foldl (fun acc np => (combinePressureLevels np.CPUPressure acc.1,
          combinePressureLevels np.MemPressure acc.2)) (a, b)).2)
      = (l.map (fun np => Nat.max (pressureOrder np.CPUPressure)
          (pressureOrder np.MemPressure))).foldl Nat.max
          (Nat.max (pressureOrder a) (pressureOrder b)) := by
  intro l
  induction l with
  | nil => intro a b; simp [pressureOrder_combine]
  | cons np l ih =>
    intro a b
    simp only [List.foldl_cons, List.map_cons]
    rw [ih]
    congr 1
    rw [pressureOrder_combine, pressureOrder_combine]
    simp [Nat.max_comm, Nat.max_left_comm, Nat.max_assoc]

theorem foldl_max_le (c : Nat) :
    ∀ (l : List Nat) (r : Nat), r ≤ c → (∀ x ∈ l, x ≤ c) →
      l.foldl Nat.max r ≤ c := by
  intro l
  induction l with
  | nil => intro r hr _; exact hr
  | cons x xs ih =>
    intro r hr hl
    simp only [List.foldl_cons]
    apply ih
    · exact Nat.max_le.mpr ⟨hr, hl x (List.mem_cons_self _ _)⟩
    · exact fun y hy => hl y (List.mem_cons_of_mem _ hy)

theorem init_le_foldl_max :
    ∀ (l : List Nat) (r : Nat), r ≤ l.foldl Nat.max r := by
  intro l
  induction l with
  | nil => exact fun r => Nat.le_refl r
  | cons x xs ih =>
    intro r
    simp only [List.foldl_cons]
    exact Nat.le_trans (Nat.le_max_left r x) (ih (Nat.max r x))

theorem le_foldl_max :
    ∀ (l : List Nat) (r x : Nat), x ∈ l → x ≤ l.foldl Nat.max r := by
  intro l
  induction l with
  | nil => intro r x hx; cases hx
  | cons y ys ih =>
    intro r x hx
    rcases List.mem_cons.mp hx with h | h
    · subst h
      simp only [List.foldl_cons]
      exact Nat.le_trans (Nat.le_max_right r x) (init_le_foldl_max ys (Nat.max r x))
    · simp only [List.foldl_cons]
      exact ih _ x h

/-- All ranks are at most 3, and rank 3 pins the level. -/
theorem rank_le_three (x : PressureLevel) : pressureOrder x ≤ 3 := by
  revert x; decide

theorem rank_three_saturated (x : PressureLevel) :
    pressureOrder x = 3 → x = .saturated := by
  revert x; decide

/-- The `if prioritizePressure(a, max) == a` update of part_009 selects
exactly the combined level. -/
theorem prioritize_select (x m : PressureLevel) :
    (if prioritizePressure x m = x then x else m) = combinePressureLevels x m := by
  revert x m; decide

/-- C3 amended: `Overall` is exactly the worst level across the per-node
CPU and memory levels — its rank is the running maximum of the per-node
ranks (with the zero-value rank `0` when there are no nodes), so one
SATURATED node forces `Overall = SATURATED` even when the cluster-wide
averages are low; part_009's variant computes the same value except that it
maps the zero value to `LOW`.  The cluster-wide utilization percentages are
never classified into `Overall`. -/
theorem c3_amended_overall_worst_node (nodes : List Node) (pods : List Pod)
    (t : PressureThresholds) (nsOrder : List String) :
    pressureOrder (CalculatePressureWithThresholds nodes pods t nsOrder).Overall
      = ((CalculatePressureWithThresholds nodes pods t nsOrder).NodePressures.map
          (fun np => Nat.max (pressureOrder np.CPUPressure)
            (pressureOrder np.MemPressure))).foldl Nat.max 0 ∧
    (∀ np ∈ (CalculatePressureWithThresholds nodes pods t nsOrder).NodePressures,
      (np.CPUPressure = .saturated ∨ np.MemPressure = .saturated) →
      (CalculatePressureWithThresholds nodes pods t nsOrder).Overall = .saturated) ∧
    legacyOverall (CalculatePressureWithThresholds nodes pods t nsOrder).NodePressures
      = (if (CalculatePressureWithThresholds nodes pods t nsOrder).Overall = .unset
          then .low
          else (CalculatePressureWithThresholds nodes pods t nsOrder).Overall) := by
  have hnp := calcPressure_nodePressures nodes pods t nsOrder
  have hov := calcPressure_overall nodes pods t nsOrder
  have hrank : pressureOrder
      (CalculatePressureWithThresholds nodes pods t nsOrder).Overall
      = ((CalculatePressureWithThresholds nodes pods t nsOrder).NodePressures.map
          (fun np => Nat.max (pressureOrder np.CPUPressure)
            (pressureOrder np.MemPressure))).foldl Nat.max 0 := by
    rw [hov, hnp]
    have h := findMax_fold_rank (calculateNodePressures nodes pods t) .unset .unset
    unfold findMaxNodePressures
    simpa using h
  refine ⟨hrank, ?_, ?_⟩
  · intro np hmem hsat
    apply rank_three_saturated
    have hle : pressureOrder
        (CalculatePressureWithThresholds nodes pods t nsOrder).Overall ≤ 3 := by
      rw [hrank]
      apply foldl_max_le
      · omega
      · intro x hx
        rcases List.mem_map.mp hx with ⟨np', _, rfl⟩
        exact Nat.max_le.mpr ⟨rank_le_three _, rank_le_three _⟩
    have hge : 3 ≤ pressureOrder
        (CalculatePressureWithThresholds nodes pods t nsOrder).Overall := by
      rw [hrank]
      have hval : Nat.max (pressureOrder np.CPUPressure)
          (pressureOrder np.MemPressure) = 3 := by
        rcases hsat with h | h <;> rw [h]
        · exact Nat.max_eq_left (rank_le_three _)
        · exact Nat.max_eq_right (rank_le_three _)
      have : Nat.max (pressureOrder np.CPUPressure)
          (pressureOrder np.MemPressure)
          ∈ (CalculatePressureWithThresholds nodes pods t nsOrder).NodePressures.map
            (fun np => Nat.max (pressureOrder np.CPUPressure)
              (pressureOrder np.MemPressure)) :=
        List.mem_map.mpr ⟨np, hmem, rfl⟩
      rw [hval] at this
      exact le_foldl_max _ _ _ this
    omega
  · rw [hov, hnp]
    unfold legacyOverall findMaxNodePressures
    have hstep : (fun (acc : PressureLevel × PressureLevel) (np : NodePressure) =>
        (if prioritizePressure np.CPUPressure acc.1 = np.CPUPressure
          then np.CPUPressure else acc.1,
         if prioritizePressure np.MemPressure acc.2 = np.MemPressure
          then np.MemPressure else acc.2))
        = (fun (acc : PressureLevel × PressureLevel) (np : NodePressure) =>
        (combinePressureLevels np.CPUPressure acc.1,
         combinePressureLevels np.MemPressure acc.2)) := by
      funext acc np
      rw [prioritize_select, prioritize_select]
    rw [hstep]
    rfl

/-- Concrete evaluation: a 1000m-CPU node and a pod requesting 2000m that
is scheduled on no node.  The node sees nothing (utilization 0, CPU LOW,
memory level zero-valued), while the cluster-wide CPU utilization is
200%. -/
theorem cexPressure_eval :
    CalculatePressureWithThresholds [nodeOneCpu] [unscheduledPod]
        DefaultPressureThresholds (["default"])
      = { Overall := .low, CPUUtilization := 200, MemUtilization := 0,
          NodePressures := [cexNodePressure],
          NamespacePressures := [cexNamespacePressure] } := by
  simp [CalculatePressureWithThresholds, calculateNodePressures,
    computeNodePressure, addPodResourcesForNode, addIfPresent,
    calculateNamespacePressures, aggregateNamespaceResources,
    aggregatePodResourcesByNamespace, emptyNamespacePressure,
    finalizeNamespacePressure, updateAssoc, getTotalAllocatable,
    getTotalRequested, findMaxNodePressures, calculateClusterPressure,
    getPressureLevel, combinePressureLevels, pressureOrder,
    DefaultPressureThresholds, nodeOneCpu, unscheduledPod,
    bigRequestContainer, List.lookup, cexNodePressure, cexNamespacePressure,
    List.filterMap, Option.map, List.foldl_cons, List.foldl_nil,
    List.map_cons, List.map_nil]
  norm_num

/-- C3 counterexample: on that snapshot the code's `Overall` is `LOW`, yet
the claim's combination — cluster CPU level (SATURATED at 200%), cluster
memory level, and the worst single-node level — is `SATURATED`; the claimed
equation is false. -/
theorem c3_counterexample_unscheduled_pod :
    (CalculatePressureWithThresholds [nodeOneCpu] [unscheduledPod]
        DefaultPressureThresholds (["default"])).Overall = .low ∧
    specClaimOverall
        (CalculatePressureWithThresholds [nodeOneCpu] [unscheduledPod]
          DefaultPressureThresholds (["default"])) DefaultPressureThresholds
      = .saturated ∧
    ¬ ((CalculatePressureWithThresholds [nodeOneCpu] [unscheduledPod]
          DefaultPressureThresholds (["default"])).Overall
        = specClaimOverall
            (CalculatePressureWithThresholds [nodeOneCpu] [unscheduledPod]
              DefaultPressureThresholds (["default"]))
            DefaultPressureThresholds) := by
  refine ⟨by rw [cexPressure_eval], ?_, ?_⟩
  · rw [cexPressure_eval]
    decide
  · rw [cexPressure_eval]
    decide

/-- Concrete evaluation for the witness: the same pod scheduled on the
node saturates it. -/
theorem satPressure_nodePressures_eval :
    (CalculatePressureWithThresholds [nodeOneCpu] [scheduledPod]
        DefaultPressureThresholds []).NodePressures = [satNodePressure] := by
  rw [calcPressure_nodePressures]
  simp [calculateNodePressures, computeNodePressure, addPodResourcesForNode,
    addIfPresent, getPressureLevel, DefaultPressureThresholds, nodeOneCpu,
    scheduledPod, bigRequestContainer, satNodePressure, List.foldl_cons,
    List.foldl_nil]
  norm_num

theorem c3_amended_overall_worst_node_witness :
    (CalculatePressureWithThresholds [nodeOneCpu] [scheduledPod]
        DefaultPressureThresholds []).Overall = .saturated :=
  (c3_amended_overall_worst_node [nodeOneCpu] [scheduledPod]
      DefaultPressureThresholds []).2.1 satNodePressure
    (by simp [satPressure_nodePressures_eval]) (Or.inl rfl)

/-! ### Association-list lemmas for the namespace map -/

theorem lookup_cons {β : Type} (a : String) (b : β) (m : List (String × β))
    (k : String) :
    ((a, b) :: m).lookup k = if k = a then some b else m.lookup k := by
  by_cases h : k = a
  · simp [List.lookup, h]
  · have hb : (k == a) = false := beq_eq_false_iff_ne.mpr h
    simp [List.lookup, h, hb]

theorem lookup_append {β : Type} :
    ∀ (m₁ m₂ : List (String × β)) (k : String),
      (m₁ ++ m₂).lookup k = ((m₁.lookup k).elim (m₂.lookup k) some) := by
  intro m₁
  induction m₁ with
  | nil => intro m₂ k; rfl
  | cons kv m ih =>
    intro m₂ k
    rcases kv with ⟨a, b⟩
    by_cases h : k = a
    · simp [List.cons_append, lookup_cons, h]
    · simp [List.cons_append, lookup_cons, h, ih]

theorem updateAssoc_cons {β : Type} (a : String) (b : β)
    (m : List (String × β)) (k : String) (f : β → β) :
    updateAssoc ((a, b) :: m) k f
      = (if a = k then (a, f b) else (a, b)) :: updateAssoc m k f := rfl

theorem map_fst_updateAssoc {β : Type} :
    ∀ (m : List (String × β)) (k : String) (f : β → β),
      (updateAssoc m k f).map Prod.fst = m.map Prod.fst := by
  intro m
  induction m with
  | nil => intro k f; rfl
  | cons kv m ih =>
    intro k f
    rcases kv with ⟨a, b⟩
    rw [updateAssoc_cons]
    by_cases h : a = k <;> simp [h, ih]

theorem lookup_updateAssoc {β : Type} :
    ∀ (m : List (String × β)) (k k' : String) (f : β → β),
      (updateAssoc m k f).lookup k'
        = if k' = k then (m.lookup k').map f else m.lookup k' := by
  intro m
  induction m with
  | nil => intro k k' f; simp [updateAssoc]
  | cons kv m ih =>
    intro k k' f
    rcases kv with ⟨a, b⟩
    rw [updateAssoc_cons]
    by_cases hak : a = k
    · subst hak
      by_cases hk : k' = a
      · subst hk
        simp [lookup_cons, ih]
      · simp [lookup_cons, ih, hk]
    · by_cases hk : k' = a
      · subst hk
        simp [lookup_cons, ih, hak]
      · simp [lookup_cons, ih, hak, hk]

theorem lookup_none_iff {β : Type} :
    ∀ (m : List (String × β)) (k : String),
      m.lookup k = none ↔ k ∉ m.map Prod.fst := by
  intro m
  induction m with
  | nil => intro k; simp
  | cons kv m ih =>
    intro k
    rcases kv with ⟨a, b⟩
    by_cases h : k = a <;> simp [lookup_cons, h, ih]

theorem lookup_foldl_updateAssoc {β : Type} (k : String)
    (g : β → ContainerResources → β) :
    ∀ (recs : List ContainerResources) (m : List (String × β)) (k' : String),
      (recs.foldl (fun m cr => updateAssoc m k (fun v => g v cr)) m).lookup k'
        = if k' = k then (m.lookup k').map (fun v => recs.foldl g v)
          else m.lookup k' := by
  intro recs
  induction recs with
  | nil =>
    intro m k'
    by_cases h : k' = k <;> simp [h]
  | cons cr recs ih =>
    intro m k'
    simp only [List.foldl_cons]
    rw [ih, lookup_updateAssoc]
    by_cases h : k' = k
    · subst h
      rw [if_pos rfl, if_pos rfl, if_pos rfl, Option.map_map]
      congr 1
    · simp [h]

theorem map_fst_foldl_updateAssoc {β : Type} (k : String)
    (g : β → ContainerResources → β) :
    ∀ (recs : List ContainerResources) (m : List (String × β)),
      (recs.foldl (fun m cr => updateAssoc m k (fun v => g v cr)) m).map Prod.fst
        = m.map Prod.fst := by
  intro recs
  induction recs with
  | nil => intro m; rfl
  | cons cr recs ih =>
    intro m
    simp only [List.foldl_cons]
    rw [ih, map_fst_updateAssoc]

theorem invStep_fst (acc : List ContainerResources × List (String × NamespaceInventory))
    (pod : Pod) : (invStep acc pod).1 = acc.1 ++ podRecords pod := rfl

theorem invStep_lookup (acc : List ContainerResources × List (String × NamespaceInventory))
    (pod : Pod) (ns : String) :
    (invStep acc pod).2.lookup ns
      = if ns = pod.ns then
          some ((podRecords pod).foldl addToNamespaceInventory
            ((acc.2.lookup ns).getD (emptyNamespaceInventory pod.ns)))
        else acc.2.lookup ns := by
  unfold invStep
  rw [lookup_foldl_updateAssoc]
  by_cases h : ns = pod.ns
  · subst h
    rcases hl : acc.2.lookup pod.ns with _ | inv
    · simp [hl, lookup_append, lookup_cons]
    · simp [hl]
  · rcases hl : acc.2.lookup pod.ns with _ | inv
    · rcases hl2 : acc.2.lookup ns with _ | v <;>
        simp [h, hl, hl2, lookup_append, lookup_cons]
    · simp [h, hl]

theorem invStep_keys (acc : List ContainerResources × List (String × NamespaceInventory))
    (pod : Pod) :
    (invStep acc pod).2.map Prod.fst
      = if (acc.2.lookup pod.ns).isSome then acc.2.map Prod.fst
        else acc.2.map Prod.fst ++ [pod.ns] := by
  unfold invStep
  rw [map_fst_foldl_updateAssoc]
  by_cases h : (acc.2.lookup pod.ns).isSome <;> simp [h]

/-- Every record a pod contributes carries the pod's namespace. -/
theorem podRecords_namespace (pod : Pod) :
    ∀ cr ∈ podRecords pod, cr.Namespace = pod.ns := by
  intro cr hcr
  rcases List.mem_append.mp hcr with h | h <;>
    · rcases List.mem_map.mp h with ⟨c, _, rfl⟩
      rfl

theorem podRecords_filter (pod : Pod) (ns : String) :
    (podRecords pod).filter (fun cr => cr.Namespace == ns)
      = if ns = pod.ns then podRecords pod else [] := by
  by_cases h : ns = pod.ns
  · rw [if_pos h]
    apply List.filter_eq_self.mpr
    intro cr hcr
    simp [podRecords_namespace pod cr hcr, h]
  · rw [if_neg h]
    apply List.filter_eq_nil_iff.mpr
    intro cr hcr
    simp [podRecords_namespace pod cr hcr]
    exact fun hc => h (Eq.symm hc)

/-- Field-by-field effect of `addToNamespaceInventory`. -/
theorem addTo_fields (inv : NamespaceInventory) (cr : ContainerResources) :
    (addToNamespaceInventory inv cr).Namespace = inv.Namespace ∧
    (addToNamespaceInventory inv cr).ContainersTotal = inv.ContainersTotal + 1 ∧
    (addToNamespaceInventory inv cr).ContainersMissingAnyRequests
      = inv.ContainersMissingAnyRequests
        + (if !cr.HasCPURequest && !cr.HasMemRequest then 1 else 0) ∧
    (addToNamespaceInventory inv cr).ContainersMissingAnyLimits
      = inv.ContainersMissingAnyLimits
        + (if !cr.HasCPULimit && !cr.HasMemLimit then 1 else 0) ∧
    (addToNamespaceInventory inv cr).CPURequestsTotal
      = inv.CPURequestsTotal + (if cr.HasCPURequest then cr.CPURequest else 0) ∧
    (addToNamespaceInventory inv cr).CPULimitsTotal
      = inv.CPULimitsTotal + (if cr.HasCPULimit then cr.CPULimit else 0) ∧
    (addToNamespaceInventory inv cr).MemRequestsTotal
      = inv.MemRequestsTotal + (if cr.HasMemRequest then cr.MemRequest else 0) ∧
    (addToNamespaceInventory inv cr).MemLimitsTotal
      = inv.MemLimitsTotal + (if cr.HasMemLimit then cr.MemLimit else 0) := by
  unfold addToNamespaceInventory
  split_ifs <;> simp_all

/-- Field-by-field effect of folding `addToNamespaceInventory` over a
record list. -/
theorem foldl_addTo_fields :
    ∀ (l : List ContainerResources) (inv : NamespaceInventory),
      (l.foldl addToNamespaceInventory inv).Namespace = inv.Namespace ∧
      (l.foldl addToNamespaceInventory inv).ContainersTotal
        = inv.ContainersTotal + l.length ∧
      (l.foldl addToNamespaceInventory inv).ContainersMissingAnyRequests
        = inv.ContainersMissingAnyRequests
          + l.countP (fun cr => !cr.HasCPURequest && !cr.HasMemRequest) ∧
      (l.foldl addToNamespaceInventory inv).ContainersMissingAnyLimits
        = inv.ContainersMissingAnyLimits
          + l.countP (fun cr => !cr.HasCPULimit && !cr.HasMemLimit) ∧
      (l.foldl addToNamespaceInventory inv).CPURequestsTotal
        = inv.CPURequestsTotal
          + ((l.filter (fun cr => cr.HasCPURequest)).map
              (fun cr => cr.CPURequest)).sum ∧
      (l.foldl addToNamespaceInventory inv).CPULimitsTotal
        = inv.CPULimitsTotal
          + ((l.filter (fun cr => cr.HasCPULimit)).map
              (fun cr => cr.CPULimit)).sum ∧
      (l.foldl addToNamespaceInventory inv).MemRequestsTotal
        = inv.MemRequestsTotal
          + ((l.filter (fun cr => cr.HasMemRequest)).map
              (fun cr => cr.MemRequest)).sum ∧
      (l.foldl addToNamespaceInventory inv).MemLimitsTotal
        = inv.MemLimitsTotal
          + ((l.filter (fun cr => cr.HasMemLimit)).map
              (fun cr => cr.MemLimit)).sum := by
  intro l
  induction l with
  | nil => intro inv; simp
  | cons cr l ih =>
    intro inv
    obtain ⟨h0, h1, h2, h3, h4, h5, h6, h7⟩ := ih (addToNamespaceInventory inv cr)
    obtain ⟨g0, g1, g2, g3, g4, g5, g6, g7⟩ := addTo_fields inv cr
    simp only [List.foldl_cons, List.length_cons, List.countP_cons,
      List.filter_cons]
    refine ⟨by rw [h0, g0], by rw [h1, g1]; omega, ?_, ?_, ?_, ?_, ?_, ?_⟩
    · rw [h2, g2]; split_ifs <;> omega
    · rw [h3, g3]; split_ifs <;> omega
    · rw [h4, g4]; split_ifs <;> simp <;> ring
    · rw [h5, g5]; split_ifs <;> simp <;> ring
    · rw [h6, g6]; split_ifs <;> simp <;> ring
    · rw [h7, g7]; split_ifs <;> simp <;> ring

theorem allRecords_nil : allRecords [] = [] := rfl

theorem allRecords_cons (pod : Pod) (pods : List Pod) :
    allRecords (pod :: pods) = podRecords pod ++ allRecords pods := rfl

/-- The pod loop in full: `allContainers` is the concatenation of all pod
records, and the namespace map holds, for each namespace that some pod
declares, the fold of `addToNamespaceInventory` over exactly the records of
that namespace (from the empty inventory), in input order. -/
theorem invFold_go :
    ∀ (pods : List Pod)
      (acc : List ContainerResources × List (String × NamespaceInventory)),
      (pods.foldl invStep acc).1 = acc.1 ++ allRecords pods ∧
      ∀ ns : String,
        (pods.foldl invStep acc).2.lookup ns =
          match acc.2.lookup ns with
          | some inv =>
            some (((allRecords pods).filter
              (fun cr => cr.Namespace == ns)).foldl addToNamespaceInventory inv)
          | none =>
            if pods.any (fun p => p.ns == ns) then
              some (((allRecords pods).filter
                (fun cr => cr.Namespace == ns)).foldl addToNamespaceInventory
                (emptyNamespaceInventory ns))
            else none := by
  intro pods
  induction pods with
  | nil =>
    intro acc
    refine ⟨by simp [allRecords_nil], ?_⟩
    intro ns
    rcases hl : acc.2.lookup ns with _ | inv <;> simp [hl, allRecords_nil]
  | cons pod pods ih =>
    intro acc
    constructor
    · rw [List.foldl_cons, (ih (invStep acc pod)).1, invStep_fst,
        allRecords_cons, List.append_assoc]
    · intro ns
      rw [List.foldl_cons, (ih (invStep acc pod)).2 ns, invStep_lookup]
      by_cases h : ns = pod.ns
      · subst h
        rw [if_pos rfl]
        rcases hl : acc.2.lookup pod.ns with _ | inv
        · simp [hl, allRecords_cons, List.filter_append, List.foldl_append,
            podRecords_filter, List.any_cons]
        · simp [hl, allRecords_cons, List.filter_append, List.foldl_append,
            podRecords_filter]
      · rw [if_neg h]
        have hb : (pod.ns == ns) = false :=
          beq_eq_false_iff_ne.mpr (fun hh => h (Eq.symm hh))
        rcases hl : acc.2.lookup ns with _ | inv <;>
          simp [hl, allRecords_cons, List.filter_append, List.foldl_append,
            podRecords_filter, h, hb, List.any_cons]

/-- The namespace-map keys stay duplicate-free. -/
theorem invFold_keys_nodup :
    ∀ (pods : List Pod)
      (acc : List ContainerResources × List (String × NamespaceInventory)),
      (acc.2.map Prod.fst).Nodup →
      ((pods.foldl invStep acc).2.map Prod.fst).Nodup := by
  intro pods
  induction pods with
  | nil => intro acc h; exact h
  | cons pod pods ih =>
    intro acc h
    rw [List.foldl_cons]
    apply ih
    rw [invStep_keys]
    rcases hl : acc.2.lookup pod.ns with _ | inv
    · have hnotin : pod.ns ∉ acc.2.map Prod.fst := (lookup_none_iff acc.2 pod.ns).mp hl
      simp [hl, List.nodup_append, h, hnotin]
    · simp [hl, h]

/-- A successful lookup in the finished namespace map is exactly the fold
over the records of that namespace. -/
theorem inventoryFold_lookup_spec (pods : List Pod) (ns : String)
    (inv : NamespaceInventory)
    (h : ((inventoryFold pods).2).lookup ns = some inv) :
    inv = ((allRecords pods).filter (fun cr => cr.Namespace == ns)).foldl
      addToNamespaceInventory (emptyNamespaceInventory ns) := by
  unfold inventoryFold at h
  rw [(invFold_go pods ([], [])).2 ns] at h
  simp only [List.lookup] at h
  by_cases ha : pods.any (fun p => p.ns == ns)
  · rw [if_pos ha] at h
    exact (Option.some.inj h).symm
  · rw [if_neg ha] at h
    cases h

/-- Every inventory in `BuildInventory`'s first output is the fold of
`addToNamespaceInventory` over exactly the records of its namespace. -/
theorem buildInventory_mem_spec (pods : List Pod) (inv : NamespaceInventory)
    (h : inv ∈ (BuildInventory pods).1) :
    inv = ((allRecords pods).filter
      (fun cr => cr.Namespace == inv.Namespace)).foldl
      addToNamespaceInventory (emptyNamespaceInventory inv.Namespace) := by
  unfold BuildInventory BuildInventoryWithOrder at h
  rcases List.mem_filterMap.mp h with ⟨ns, _, hlook⟩
  have hspec := inventoryFold_lookup_spec pods ns inv hlook
  have hns : inv.Namespace = ns := by
    rw [hspec]
    rw [(foldl_addTo_fields _ _).1]
    rfl
  rw [hns]
  exact hspec

/-- C5: in every namespace inventory produced by `BuildInventory`, a
container is counted in `ContainersMissingAnyRequests` exactly when both
request flags are false — the count equals the number of records of that
namespace with both `HasCPURequest` and `HasMemRequest` false — and the
same both-absent rule yields `ContainersMissingAnyLimits`. -/
theorem c5_missing_any_counts (pods : List Pod) (inv : NamespaceInventory)
    (h : inv ∈ (BuildInventory pods).1) :
    inv.ContainersMissingAnyRequests
      = ((allRecords pods).filter
          (fun cr => cr.Namespace == inv.Namespace)).countP
          (fun cr => !cr.HasCPURequest && !cr.HasMemRequest) ∧
    inv.ContainersMissingAnyLimits
      = ((allRecords pods).filter
          (fun cr => cr.Namespace == inv.Namespace)).countP
          (fun cr => !cr.HasCPULimit && !cr.HasMemLimit) := by
  have hspec := buildInventory_mem_spec pods inv h
  obtain ⟨-, -, h2, h3, -, -, -, -⟩ :=
    foldl_addTo_fields
      ((allRecords pods).filter (fun cr => cr.Namespace == inv.Namespace))
      (emptyNamespaceInventory inv.Namespace)
  constructor
  · rw [congrArg NamespaceInventory.ContainersMissingAnyRequests hspec, h2]
    simp [emptyNamespaceInventory]
  · rw [congrArg NamespaceInventory.ContainersMissingAnyLimits hspec, h3]
    simp [emptyNamespaceInventory]

theorem c5_missing_any_counts_witness :
    initOnlyInventory.ContainersMissingAnyRequests
      = ((allRecords [initOnlyPod]).filter
          (fun cr => cr.Namespace == initOnlyInventory.Namespace)).countP
          (fun cr => !cr.HasCPURequest && !cr.HasMemRequest) ∧
    initOnlyInventory.ContainersMissingAnyLimits
      = ((allRecords [initOnlyPod]).filter
          (fun cr => cr.Namespace == initOnlyInventory.Namespace)).countP
          (fun cr => !cr.HasCPULimit && !cr.HasMemLimit) :=
  c5_missing_any_counts [initOnlyPod] initOnlyInventory (by decide)

/-- C6: in every namespace inventory produced by `BuildInventory`, each of
the four quantity totals is the exact sum of the corresponding quantity
over exactly those records of that namespace whose flag is set — absent
quantities contribute nothing — and `ContainersTotal` is the number of
records of that namespace, init containers included. -/
theorem c6_namespace_totals (pods : List Pod) (inv : NamespaceInventory)
    (h : inv ∈ (BuildInventory pods).1) :
    inv.ContainersTotal
      = ((allRecords pods).filter
          (fun cr => cr.Namespace == inv.Namespace)).length ∧
    inv.CPURequestsTotal
      = ((((allRecords pods).filter
            (fun cr => cr.Namespace == inv.Namespace)).filter
            (fun cr => cr.HasCPURequest)).map (fun cr => cr.CPURequest)).sum ∧
    inv.CPULimitsTotal
      = ((((allRecords pods).filter
            (fun cr => cr.Namespace == inv.Namespace)).filter
            (fun cr => cr.HasCPULimit)).map (fun cr => cr.CPULimit)).sum ∧
    inv.MemRequestsTotal
      = ((((allRecords pods).filter
            (fun cr => cr.Namespace == inv.Namespace)).filter
            (fun cr => cr.HasMemRequest)).map (fun cr => cr.MemRequest)).sum ∧
    inv.MemLimitsTotal
      = ((((allRecords pods).filter
            (fun cr => cr.Namespace == inv.Namespace)).filter
            (fun cr => cr.HasMemLimit)).map (fun cr => cr.MemLimit)).sum := by
  have hspec := buildInventory_mem_spec pods inv h
  obtain ⟨-, h1, -, -, h4, h5, h6, h7⟩ :=
    foldl_addTo_fields
      ((allRecords pods).filter (fun cr => cr.Namespace == inv.Namespace))
      (emptyNamespaceInventory inv.Namespace)
  refine ⟨?_, ?_, ?_, ?_, ?_⟩
  · rw [congrArg NamespaceInventory.ContainersTotal hspec, h1]
    simp [emptyNamespaceInventory]
  · rw [congrArg NamespaceInventory.CPURequestsTotal hspec, h4]
    simp [emptyNamespaceInventory]
  · rw [congrArg NamespaceInventory.CPULimitsTotal hspec, h5]
    simp [emptyNamespaceInventory]
  · rw [congrArg NamespaceInventory.MemRequestsTotal hspec, h6]
    simp [emptyNamespaceInventory]
  · rw [congrArg NamespaceInventory.MemLimitsTotal hspec, h7]
    simp [emptyNamespaceInventory]

theorem c6_namespace_totals_witness :
    initOnlyInventory.ContainersTotal
      = ((allRecords [initOnlyPod]).filter
          (fun cr => cr.Namespace == initOnlyInventory.Namespace)).length ∧
    initOnlyInventory.CPURequestsTotal
      = ((((allRecords [initOnlyPod]).filter
            (fun cr => cr.Namespace == initOnlyInventory.Namespace)).filter
            (fun cr => cr.HasCPURequest)).map (fun cr => cr.CPURequest)).sum ∧
    initOnlyInventory.CPULimitsTotal
      = ((((allRecords [initOnlyPod]).filter
            (fun cr => cr.Namespace == initOnlyInventory.Namespace)).filter
            (fun cr => cr.HasCPULimit)).map (fun cr => cr.CPULimit)).sum ∧
    initOnlyInventory.MemRequestsTotal
      = ((((allRecords [initOnlyPod]).filter
            (fun cr => cr.Namespace == initOnlyInventory.Namespace)).filter
            (fun cr => cr.HasMemRequest)).map (fun cr => cr.MemRequest)).sum ∧
    initOnlyInventory.MemLimitsTotal
      = ((((allRecords [initOnlyPod]).filter
            (fun cr => cr.Namespace == initOnlyInventory.Namespace)).filter
            (fun cr => cr.HasMemLimit)).map (fun cr => cr.MemLimit)).sum :=
  c6_namespace_totals [initOnlyPod] initOnlyInventory (by decide)

/-- The container comparator is the strict lexicographic order on
`crKey`. -/
theorem crLess_iff_lt (a b : ContainerResources) :
    crLess a b = true ↔ crKey a < crKey b := by
  unfold crLess crKey
  by_cases h1 : a.Namespace = b.Namespace
  · rw [if_neg (by simpa using h1)]
    by_cases h2 : a.PodName = b.PodName
    · rw [if_neg (by simpa using h2)]
      by_cases h3 : a.ContainerName = b.ContainerName
      · rw [if_neg (by simpa using h3)]
        simp [Prod.Lex.lt_iff, h1, h2, h3, lt_self_iff_false, Bool.lt_iff]
      · rw [if_pos h3]
        simp [Prod.Lex.lt_iff, h1, h2, h3, lt_self_iff_false]
    · rw [if_pos h2]
      simp [Prod.Lex.lt_iff, h1, h2, lt_self_iff_false]
  · rw [if_pos h1]
    simp [Prod.Lex.lt_iff, h1]

/-- "Not strictly after" under the comparator is `≤` on the sort keys. -/
theorem crSorted_le_iff (a b : ContainerResources) :
    (crLess b a = false) ↔ crKey a ≤ crKey b := by
  rw [← not_lt, ← crLess_iff_lt]
  cases h : crLess b a <;> simp [h]

theorem inventoryFold_fst (pods : List Pod) :
    (inventoryFold pods).1 = allRecords pods := by
  unfold inventoryFold
  rw [(invFold_go pods ([], [])).1]
  rfl

theorem filterMap_lookup_map_ns (m : List (String × NamespaceInventory))
    (hm : ∀ k v, m.lookup k = some v → v.Namespace = k) :
    ∀ ks : List String, (∀ k ∈ ks, (m.lookup k).isSome) →
      ((ks.filterMap (fun ns => m.lookup ns)).map (fun i => i.Namespace)) = ks := by
  intro ks
  induction ks with
  | nil => intro _; rfl
  | cons k ks ih =>
    intro hall
    have hk := hall k (List.mem_cons_self _ _)
    rcases ho : m.lookup k with _ | v
    · rw [ho] at hk
      cases hk
    · rw [List.filterMap_cons]
      simp only [ho, List.map_cons]
      rw [hm k v ho, ih (fun x hx => hall x (List.mem_cons_of_mem _ hx))]

/-- C7 amended: `BuildInventory`'s outputs are sorted as a contract — the
namespace inventories strictly ascending by namespace name, and the
per-container list a permutation of all extracted records, pairwise ordered
by the code's comparator, which is exactly the lexicographic order on
(namespace, pod name, container name, init-ness) with INIT containers
ordered before regular ones when all three names are equal. -/
theorem c7_amended_sort_contract (pods : List Pod) :
    (BuildInventory pods).2.Perm (allRecords pods) ∧
    List.Pairwise (fun a b => crLess b a = false) (BuildInventory pods).2 ∧
    (∀ a b : ContainerResources, (crLess b a = false) ↔ crKey a ≤ crKey b) ∧
    List.Pairwise (fun x y : String => x < y)
      ((BuildInventory pods).1.map (fun i => i.Namespace)) := by
  haveI htot : IsTotal ContainerResources (fun a b => crLess b a = false) :=
    ⟨fun a b => by
      rw [crSorted_le_iff, crSorted_le_iff]
      exact le_total _ _⟩
  haveI htr : IsTrans ContainerResources (fun a b => crLess b a = false) :=
    ⟨fun a b c hab hbc => by
      rw [crSorted_le_iff] at *
      exact le_trans hab hbc⟩
  refine ⟨?_, ?_, crSorted_le_iff, ?_⟩
  · show (sortContainers (inventoryFold pods).1).Perm (allRecords pods)
    rw [inventoryFold_fst]
    exact List.perm_insertionSort _ _
  · exact List.sorted_insertionSort _ _
  · show List.Pairwise (fun x y : String => x < y)
      (((List.insertionSort (fun a b : String => a ≤ b)
          ((inventoryFold pods).2.map Prod.fst)).filterMap
        (fun ns => (inventoryFold pods).2.lookup ns)).map (fun i => i.Namespace))
    have hperm : (List.insertionSort (fun a b : String => a ≤ b)
        ((inventoryFold pods).2.map Prod.fst)).Perm
        ((inventoryFold pods).2.map Prod.fst) := List.perm_insertionSort _ _
    rw [filterMap_lookup_map_ns (inventoryFold pods).2
      (fun k v hv => by
        rw [inventoryFold_lookup_spec pods k v hv, (foldl_addTo_fields _ _).1]
        rfl)
      _
      (fun k hk => by
        have hmem : k ∈ (inventoryFold pods).2.map Prod.fst := hperm.mem_iff.mp hk
        have : ¬ ((inventoryFold pods).2.lookup k = none) := by
          rw [lookup_none_iff]
          simpa using hmem
        exact Option.isSome_iff_ne_none.mpr this)]
    have hsorted : List.Sorted (fun a b : String => a ≤ b)
        (List.insertionSort (fun a b : String => a ≤ b)
          ((inventoryFold pods).2.map Prod.fst)) :=
      List.sorted_insertionSort _ _
    have hnodup : (List.insertionSort (fun a b : String => a ≤ b)
        ((inventoryFold pods).2.map Prod.fst)).Nodup := by
      rw [hperm.nodup_iff]
      exact invFold_keys_nodup pods ([], []) (by simp)
    exact List.Sorted.lt_of_le hsorted hnodup

/-- C7 counterexample: a pod with an init container and a regular container
of the same name.  The produced per-container list places the INIT record
first, so the claimed regular-before-init ordering predicate fails on the
output. -/
theorem c7_counterexample_init_first :
    ((BuildInventory [tieBreakPod]).2.map (fun cr => (cr.ContainerName, cr.IsInit)))
      = [(("x" : String), true), (("x" : String), false)] ∧
    ¬ List.Pairwise (fun a b => specContainerOrderOK a b = true)
        (BuildInventory [tieBreakPod]).2 := by
  constructor
  · decide
  · decide

/-- C9 amended: both analyses are deterministic functions of the snapshot
except for the namespace-map iteration order, and `BuildInventory` is
insensitive even to that: any iteration order that is a permutation of the
map's keys yields the same (sorted) output.  `CalculatePressure`'s
`NamespacePressures` list, by contrast, is determined only up to
permutation of the iteration order. -/
theorem c9_amended_determinism :
    (∀ (pods : List Pod) (nsOrder : List String),
      nsOrder.Perm ((inventoryFold pods).2.map Prod.fst) →
      BuildInventoryWithOrder pods nsOrder = BuildInventory pods) ∧
    (∀ (nodes : List Node) (pods : List Pod) (t : PressureThresholds)
       (ord : List String),
      ord.Perm ((aggregateNamespaceResources pods).map Prod.fst) →
      (calculateNamespacePressures nodes pods t ord).Perm
        (calculateNamespacePressures nodes pods t
          ((aggregateNamespaceResources pods).map Prod.fst))) := by
  constructor
  · intro pods nsOrder hperm
    unfold BuildInventory BuildInventoryWithOrder
    have hp : (List.insertionSort (fun a b : String => a ≤ b) nsOrder).Perm
        (List.insertionSort (fun a b : String => a ≤ b)
          ((inventoryFold pods).2.map Prod.fst)) :=
      ((List.perm_insertionSort _ _).trans hperm).trans
        (List.perm_insertionSort _ _).symm
    have hsort :=
      @List.eq_of_perm_of_sorted String (fun a b : String => a ≤ b)
        ⟨fun a b h1 h2 => le_antisymm h1 h2⟩ _ _ hp
        (List.sorted_insertionSort _ _) (List.sorted_insertionSort _ _)
    rw [hsort]
  · intro nodes pods t ord hperm
    unfold calculateNamespacePressures
    exact List.Perm.filterMap _ hperm

theorem c9_amended_determinism_witness :
    BuildInventoryWithOrder [podInA, podInB] [("b" : String), "a"]
      = BuildInventory [podInA, podInB] :=
  c9_amended_determinism.1 [podInA, podInB] [("b" : String), "a"] (by decide)

/-- Evaluation of the namespace pressures at the two opposite map-iteration
orders. -/
theorem c9_eval_order_ab :
    calculateNamespacePressures [] [podInA, podInB] DefaultPressureThresholds
        [("a" : String), "b"] = [nsPressureA, nsPressureB] := by
  simp [calculateNamespacePressures, aggregateNamespaceResources,
    aggregatePodResourcesByNamespace, emptyNamespacePressure,
    finalizeNamespacePressure, updateAssoc, getTotalAllocatable,
    getPressureLevel, DefaultPressureThresholds, podInA, podInB,
    smallContainer1, smallContainer2, nsPressureA, nsPressureB,
    List.lookup, List.filterMap, Option.map, List.foldl_cons, List.foldl_nil]
  norm_num

theorem c9_eval_order_ba :
    calculateNamespacePressures [] [podInA, podInB] DefaultPressureThresholds
        [("b" : String), "a"] = [nsPressureB, nsPressureA] := by
  simp [calculateNamespacePressures, aggregateNamespaceResources,
    aggregatePodResourcesByNamespace, emptyNamespacePressure,
    finalizeNamespacePressure, updateAssoc, getTotalAllocatable,
    getPressureLevel, DefaultPressureThresholds, podInA, podInB,
    smallContainer1, smallContainer2, nsPressureA, nsPressureB,
    List.lookup, List.filterMap, Option.map, List.foldl_cons, List.foldl_nil]
  norm_num

/-- C9 counterexample: with two namespaces, two legitimate map-iteration
orders produce the `NamespacePressures` list in two different orders — the
list is not emitted in a fixed (ascending-name) order on every run. -/
theorem c9_counterexample_ns_order :
    ([("a" : String), "b"].Perm
      ((aggregateNamespaceResources [podInA, podInB]).map Prod.fst)) ∧
    ([("b" : String), "a"].Perm
      ((aggregateNamespaceResources [podInA, podInB]).map Prod.fst)) ∧
    calculateNamespacePressures [] [podInA, podInB] DefaultPressureThresholds
        [("a" : String), "b"]
      ≠ calculateNamespacePressures [] [podInA, podInB]
          DefaultPressureThresholds [("b" : String), "a"] := by
  refine ⟨by decide, by decide, ?_⟩
  rw [c9_eval_order_ab, c9_eval_order_ba]
  decide

theorem c8_amended_diff_ratios_witness :
    (diffOf ([] : List ((String × String × String) × ContainerUsage))
        cpuRequestRecord).CPUUsageToRequest
      = some (((((([] : List ((String × String × String) × ContainerUsage)).lookup
            (cpuRequestRecord.Namespace, cpuRequestRecord.PodName,
              cpuRequestRecord.ContainerName)).getD
            zeroContainerUsage).CPUUsage : ℤ) : ℚ)
          / (cpuRequestRecord.CPURequest : ℚ)) :=
  (c8_amended_diff_ratios.1 ([] : List ((String × String × String) × ContainerUsage))
      cpuRequestRecord).1 (by decide) (by decide)
